import Mathlib

/-!
Shallow embedding of the governance engine of the PhishGaurd repository
(source file `src/governance/governance_engine.py`).

Modelling conventions:
* machine time is a natural number of seconds; `timedelta` values are seconds;
* Python exceptions are modelled with `Except`; operations that may mutate
  state before raising return the resulting engine state alongside the
  `Except` value, so a raised error still reports the side effects that
  happened before the raise;
* the random override id and the wall clock are passed in as parameters;
* Python dictionaries keyed by strings become association lists, with lookup
  and in-place update mirroring dict semantics.
-/

inductive OverrideAuthority
  | SECURITY_TEAM
  | ON_CALL
  | CI_SYSTEM
  deriving DecidableEq

def OverrideAuthority.value : OverrideAuthority → String
  | OverrideAuthority.SECURITY_TEAM => "security-team"
  | OverrideAuthority.ON_CALL => "on-call"
  | OverrideAuthority.CI_SYSTEM => "ci-system"

inductive OverrideType
  | PERMANENT
  | EMERGENCY
  | TESTING
  deriving DecidableEq

def OverrideType.value : OverrideType → String
  | OverrideType.PERMANENT => "permanent"
  | OverrideType.EMERGENCY => "emergency"
  | OverrideType.TESTING => "testing"

/-- `OVERRIDE_MAX_DURATION`: none for PERMANENT, 24 hours for EMERGENCY,
1 hour for TESTING (in seconds). -/
def OVERRIDE_MAX_DURATION : OverrideType → Option Nat
  | OverrideType.PERMANENT => none
  | OverrideType.EMERGENCY => some 86400
  | OverrideType.TESTING => some 3600

/-- `SAFETY_BUDGET_LIMITS` dictionary from the source. -/
def SAFETY_BUDGET_LIMITS (key : String) : Nat :=
  if key = "suspicious_on_trusted" then 0
  else if key = "overrides_per_window" then 3
  else if key = "canary_failures" then 5
  else 0

def CANARY_MIN_PASSES : Nat := 5

def CANARY_MIN_SAMPLE_SIZE : Nat := 100

structure Override where
  override_id : String
  override_type : String
  authority : String
  created_at : Nat
  expires_at : Option Nat
  affected_domains : List String
  reason : String
  approved_by : String
  review_ticket : Option String
  is_active : Bool := true
  deriving DecidableEq

structure CanarySignal where
  domain : String
  test_runs : Nat := 0
  passes : Nat := 0
  failures : Nat := 0
  sample_size : Nat := 0
  last_run : Option Nat := none
  last_verdict : Option String := none
  consecutive_passes : Nat := 0
  deriving DecidableEq

/-- `CanarySignal.pass_rate`: passes / test_runs, 0.0 when no runs. -/
def CanarySignal.pass_rate (s : CanarySignal) : ℚ :=
  if s.test_runs = 0 then 0 else (s.passes : ℚ) / (s.test_runs : ℚ)

/-- `CanarySignal.has_sufficient_signal`. -/
def CanarySignal.has_sufficient_signal (s : CanarySignal) : Bool :=
  decide (s.test_runs ≥ CANARY_MIN_PASSES) &&
    decide (s.sample_size ≥ CANARY_MIN_SAMPLE_SIZE)

/-- `CanarySignal.is_promotable`. -/
def CanarySignal.is_promotable (s : CanarySignal) : Bool :=
  s.has_sufficient_signal &&
    decide (s.consecutive_passes ≥ CANARY_MIN_PASSES) &&
    decide (s.pass_rate ≥ 1)

structure SafetyBudgetStatus where
  window_start : Nat
  suspicious_on_trusted : Nat := 0
  overrides_used : Nat := 0
  canary_failures : Nat := 0
  is_frozen : Bool := false
  freeze_reason : Option String := none
  deriving DecidableEq

/-- Result of `SafetyBudgetStatus.is_budget_exceeded` (a three-key dict in
the source, in insertion order suspicious, overrides, canary). -/
structure BudgetExceeded where
  suspicious_on_trusted : Bool
  overrides_per_window : Bool
  canary_failures : Bool
  deriving DecidableEq

/-- `SafetyBudgetStatus.is_budget_exceeded`: strict comparison of each
counter against its limit. -/
def SafetyBudgetStatus.is_budget_exceeded (b : SafetyBudgetStatus) : BudgetExceeded :=
  { suspicious_on_trusted :=
      decide (b.suspicious_on_trusted > SAFETY_BUDGET_LIMITS "suspicious_on_trusted")
    overrides_per_window :=
      decide (b.overrides_used > SAFETY_BUDGET_LIMITS "overrides_per_window")
    canary_failures :=
      decide (b.canary_failures > SAFETY_BUDGET_LIMITS "canary_failures") }

structure GovernanceEngine where
  overrides : List Override
  canary_signals : List (String × CanarySignal)
  safety_budget : SafetyBudgetStatus
  deriving DecidableEq

/-- `GovernanceEngine._trigger_freeze`: set the frozen flag and record the
reason (persistence and the operator alert are I/O, outside the model). -/
def trigger_freeze (e : GovernanceEngine) (reason : String) : GovernanceEngine :=
  { e with safety_budget :=
      { e.safety_budget with is_frozen := true, freeze_reason := some reason } }

/-- The budget-check loop at the end of `record_safety_event`: the exceeded
map is computed once, then each exceeded budget triggers a freeze if the
system is not frozen at that point, in dict insertion order. -/
def check_budgets_and_freeze (e : GovernanceEngine) : GovernanceEngine :=
  let exceeded := e.safety_budget.is_budget_exceeded
  let e1 :=
    if exceeded.suspicious_on_trusted && !e.safety_budget.is_frozen then
      trigger_freeze e "Safety budget exceeded: suspicious_on_trusted"
    else e
  let e2 :=
    if exceeded.overrides_per_window && !e1.safety_budget.is_frozen then
      trigger_freeze e1 "Safety budget exceeded: overrides_per_window"
    else e1
  if exceeded.canary_failures && !e2.safety_budget.is_frozen then
    trigger_freeze e2 "Safety budget exceeded: canary_failures"
  else e2

/-- `GovernanceEngine.record_safety_event`. -/
def record_safety_event (e : GovernanceEngine) (event_type : String) : GovernanceEngine :=
  let e1 :=
    if event_type = "suspicious_on_trusted" then
      trigger_freeze
        { e with safety_budget :=
            { e.safety_budget with
                suspicious_on_trusted := e.safety_budget.suspicious_on_trusted + 1 } }
        "CRITICAL: SUSPICIOUS verdict on trusted domain"
    else if event_type = "override" then
      { e with safety_budget :=
          { e.safety_budget with
              overrides_used := e.safety_budget.overrides_used + 1 } }
    else if event_type = "canary_failure" then
      { e with safety_budget :=
          { e.safety_budget with
              canary_failures := e.safety_budget.canary_failures + 1 } }
    else e
  check_budgets_and_freeze e1

/-- `GovernanceEngine._validate_authority`: the kind/authority matrix.
The Python emptiness test `not review_ticket` is true for both `None` and
the empty string. -/
def validate_authority (override_type : OverrideType) (authority : OverrideAuthority)
    (review_ticket : Option String) : Except String Unit :=
  match override_type with
  | OverrideType.PERMANENT =>
    if authority ≠ OverrideAuthority.SECURITY_TEAM then
      Except.error
        ("PERMANENT overrides require SECURITY_TEAM authority, got " ++ authority.value)
    else if review_ticket.getD "" = "" then
      Except.error "PERMANENT overrides require a review_ticket reference"
    else Except.ok ()
  | OverrideType.EMERGENCY =>
    if authority = OverrideAuthority.SECURITY_TEAM ∨ authority = OverrideAuthority.ON_CALL then
      Except.ok ()
    else
      Except.error
        ("EMERGENCY overrides require SECURITY_TEAM or ON_CALL, got " ++ authority.value)
  | OverrideType.TESTING =>
    if authority = OverrideAuthority.CI_SYSTEM then Except.ok ()
    else
      Except.error ("TESTING overrides are for CI_SYSTEM only, got " ++ authority.value)

/-- `GovernanceEngine._calculate_expiration`: PERMANENT never expires; other
kinds cap the requested duration at the kind maximum and default to the
maximum when no duration is requested. -/
def calculate_expiration (now : Nat) (override_type : OverrideType)
    (duration : Option Nat) : Option Nat :=
  match OVERRIDE_MAX_DURATION override_type with
  | none => none
  | some max_duration =>
    let d :=
      match duration with
      | none => max_duration
      | some d => if d > max_duration then max_duration else d
    some (now + d)

/-- Rendering of the frozen freeze reason inside the frozen-state error
message (Python formats `None` as the string None). -/
def optionalStr : Option String → String
  | none => "None"
  | some s => s

/-- `GovernanceEngine.request_override`.  `now` is the wall clock and `oid`
the generated override id.  Returns the outcome together with the engine
state after the call: the frozen check and authority validation reject
before any mutation, while the budget check triggers a freeze before
raising. -/
def request_override (e : GovernanceEngine) (now : Nat)
    (override_type : OverrideType) (authority : OverrideAuthority)
    (affected_domains : List String) (reason : String) (approved_by : String)
    (review_ticket : Option String) (duration : Option Nat) (oid : String) :
    Except String Override × GovernanceEngine :=
  if e.safety_budget.is_frozen then
    (Except.error
      ("System is frozen: " ++ optionalStr e.safety_budget.freeze_reason ++
        "\nNo overrides allowed until freeze is lifted."), e)
  else
    match validate_authority override_type authority review_ticket with
    | Except.error msg => (Except.error msg, e)
    | Except.ok _ =>
      let expires_at := calculate_expiration now override_type duration
      let exceeded := e.safety_budget.is_budget_exceeded
      if exceeded.overrides_per_window then
        (Except.error "Override budget exceeded. System frozen.",
          trigger_freeze e "Override budget exceeded")
      else
        let override : Override :=
          { override_id := oid
            override_type := override_type.value
            authority := authority.value
            created_at := now
            expires_at := expires_at
            affected_domains := affected_domains
            reason := reason
            approved_by := approved_by
            review_ticket := review_ticket
            is_active := true }
        (Except.ok override,
          { e with
              overrides := e.overrides ++ [override]
              safety_budget :=
                { e.safety_budget with
                    overrides_used := e.safety_budget.overrides_used + 1 } })

/-- Claim C1: recording a `suspicious_on_trusted` safety event freezes the
system unconditionally — for every prior engine state, frozen or not and for
any counter values, afterwards `is_frozen` is true and the freeze reason is a
non-empty string. -/
theorem record_suspicious_on_trusted_always_freezes (e : GovernanceEngine) :
    (record_safety_event e "suspicious_on_trusted").safety_budget.is_frozen = true ∧
    ∃ r, (record_safety_event e "suspicious_on_trusted").safety_budget.freeze_reason = some r ∧
      r ≠ "" := by
  refine ⟨?_, "CRITICAL: SUSPICIOUS verdict on trusted domain", ?_, by decide⟩ <;>
    simp [record_safety_event, check_budgets_and_freeze, trigger_freeze]

/-- Claim C2: while the safety budget is frozen, every override request
fails with the frozen-state error before any other validation, for every
combination of kind, authority, domains, ticket and duration; the engine
state is returned unchanged, so no override is issued and no counter moves,
and the system stays frozen until a lift. -/
theorem frozen_blocks_all_override_requests (e : GovernanceEngine) (now : Nat)
    (ot : OverrideType) (auth : OverrideAuthority) (domains : List String)
    (reason approved_by : String) (ticket : Option String) (dur : Option Nat)
    (oid : String) (h : e.safety_budget.is_frozen = true) :
    request_override e now ot auth domains reason approved_by ticket dur oid =
      (Except.error
        ("System is frozen: " ++ optionalStr e.safety_budget.freeze_reason ++
          "\nNo overrides allowed until freeze is lifted."), e) := by
  simp [request_override, h]

/-- A concrete frozen engine used to witness the frozen-state rejection. -/
def frozenEngine : GovernanceEngine :=
  { overrides := []
    canary_signals := []
    safety_budget :=
      { window_start := 0, is_frozen := true, freeze_reason := some "test freeze" } }

/-- Witness for claim C2 at a concrete frozen engine. -/
theorem frozen_blocks_all_override_requests_witness :
    frozenEngine.safety_budget.is_frozen = true ∧
    request_override frozenEngine 0 OverrideType.EMERGENCY OverrideAuthority.ON_CALL
        ["example.com"] "incident" "alice" none none "OVERRIDE-1" =
      (Except.error
        ("System is frozen: " ++ optionalStr frozenEngine.safety_budget.freeze_reason ++
          "\nNo overrides allowed until freeze is lifted."), frozenEngine) :=
  ⟨rfl, frozen_blocks_all_override_requests frozenEngine 0 OverrideType.EMERGENCY
    OverrideAuthority.ON_CALL ["example.com"] "incident" "alice" none none "OVERRIDE-1" rfl⟩

/-- Claim C5: the authority matrix is exact — PERMANENT succeeds only for
SECURITY_TEAM with a non-empty review ticket, EMERGENCY only for
SECURITY_TEAM or ON_CALL, TESTING only for CI_SYSTEM; every other
combination is a validation error. -/
theorem authority_matrix_exact (ot : OverrideType) (auth : OverrideAuthority)
    (ticket : Option String) :
    validate_authority ot auth ticket = Except.ok () ↔
      (match ot with
       | OverrideType.PERMANENT =>
           auth = OverrideAuthority.SECURITY_TEAM ∧ ticket ≠ none ∧ ticket ≠ some ""
       | OverrideType.EMERGENCY =>
           auth = OverrideAuthority.SECURITY_TEAM ∨ auth = OverrideAuthority.ON_CALL
       | OverrideType.TESTING => auth = OverrideAuthority.CI_SYSTEM) := by
  cases ot <;> cases auth <;> rcases ticket with _ | t <;>
    simp [validate_authority] <;> by_cases ht : t = "" <;> simp [ht]

/-- Claim C9: expiration computation — PERMANENT gets no expiration; for
EMERGENCY and TESTING the result is always issued (never an error) and
equals creation time plus the requested duration capped at the kind maximum
(24 h = 86400 s for EMERGENCY, 1 h = 3600 s for TESTING); a missing
duration defaults to the maximum. -/
theorem duration_capped_never_rejected (now d : Nat) :
    (∀ dur, calculate_expiration now OverrideType.PERMANENT dur = none) ∧
    calculate_expiration now OverrideType.EMERGENCY (some d) = some (now + min d 86400) ∧
    calculate_expiration now OverrideType.TESTING (some d) = some (now + min d 3600) ∧
    calculate_expiration now OverrideType.EMERGENCY none = some (now + 86400) ∧
    calculate_expiration now OverrideType.TESTING none = some (now + 3600) := by
  refine ⟨fun dur => rfl, ?_, ?_, rfl, rfl⟩ <;>
    · simp only [calculate_expiration, OVERRIDE_MAX_DURATION, Option.some.injEq]
      split <;> omega

/-- A concrete unfrozen engine that has already issued three overrides in
the current window. -/
def threeOverridesEngine : GovernanceEngine :=
  { overrides := []
    canary_signals := []
    safety_budget := { window_start := 0, overrides_used := 3 } }

/-- Whether a `request_override` outcome is a success. -/
def isOkOverride : Except String Override → Bool
  | Except.ok _ => true
  | Except.error _ => false

/-- Counterexample to claim C3 as stated: in an unfrozen state with exactly
3 overrides already issued in the window, a fourth otherwise-valid request
is NOT rejected — it succeeds, the counter moves to 4 and the system is not
frozen, because the budget check compares the counter before incrementing
(`overrides_used > 3`). -/
theorem fourth_override_succeeds_counterexample :
    threeOverridesEngine.safety_budget.overrides_used = 3 ∧
    threeOverridesEngine.safety_budget.is_frozen = false ∧
    isOkOverride (request_override threeOverridesEngine 0 OverrideType.EMERGENCY
        OverrideAuthority.ON_CALL ["example.com"] "incident" "alice" none none
        "OVERRIDE-2").1 = true ∧
    (request_override threeOverridesEngine 0 OverrideType.EMERGENCY
        OverrideAuthority.ON_CALL ["example.com"] "incident" "alice" none none
        "OVERRIDE-2").2.safety_budget.is_frozen = false ∧
    (request_override threeOverridesEngine 0 OverrideType.EMERGENCY
        OverrideAuthority.ON_CALL ["example.com"] "incident" "alice" none none
        "OVERRIDE-2").2.safety_budget.overrides_used = 4 :=
  ⟨rfl, rfl, rfl, rfl, rfl⟩

/-- Claim C3 amended: an otherwise-valid override request is rejected with
the budget-exceeded error, and triggers a freeze as a side effect, exactly
when MORE than 3 overrides have already been issued in the current window
(the comparison happens before the counter is incremented, so the fourth
request after three issued overrides still succeeds and the fifth is the
one rejected). -/
theorem override_budget_rejection (e : GovernanceEngine) (now : Nat)
    (ot : OverrideType) (auth : OverrideAuthority) (domains : List String)
    (reason approved_by : String) (ticket : Option String) (dur : Option Nat)
    (oid : String)
    (hf : e.safety_budget.is_frozen = false)
    (hb : 3 < e.safety_budget.overrides_used)
    (hv : validate_authority ot auth ticket = Except.ok ()) :
    request_override e now ot auth domains reason approved_by ticket dur oid =
      (Except.error "Override budget exceeded. System frozen.",
        trigger_freeze e "Override budget exceeded") ∧
    (request_override e now ot auth domains reason approved_by ticket dur
        oid).2.safety_budget.is_frozen = true := by
  constructor <;>
    simp [request_override, hf, hv, SafetyBudgetStatus.is_budget_exceeded,
      SAFETY_BUDGET_LIMITS, hb, trigger_freeze]

/-- A concrete unfrozen engine whose window already holds four issued
overrides. -/
def fourOverridesEngine : GovernanceEngine :=
  { overrides := []
    canary_signals := []
    safety_budget := { window_start := 0, overrides_used := 4 } }

/-- Witness for the amended claim C3 at a concrete engine with four
overrides already issued. -/
theorem override_budget_rejection_witness :
    request_override fourOverridesEngine 0 OverrideType.EMERGENCY OverrideAuthority.ON_CALL
        ["example.com"] "incident" "alice" none none "OVERRIDE-3" =
      (Except.error "Override budget exceeded. System frozen.",
        trigger_freeze fourOverridesEngine "Override budget exceeded") ∧
    (request_override fourOverridesEngine 0 OverrideType.EMERGENCY OverrideAuthority.ON_CALL
        ["example.com"] "incident" "alice" none none
        "OVERRIDE-3").2.safety_budget.is_frozen = true :=
  override_budget_rejection fourOverridesEngine 0 OverrideType.EMERGENCY
    OverrideAuthority.ON_CALL ["example.com"] "incident" "alice" none none "OVERRIDE-3"
    rfl (by decide) rfl

/-- `GovernanceEngine._reset_safety_budget`: replace the budget with a fresh
window starting now (dataclass defaults: all counters 0, not frozen, no
reason). -/
def reset_safety_budget (e : GovernanceEngine) (now : Nat) : GovernanceEngine :=
  { e with safety_budget := { window_start := now } }

/-- `GovernanceEngine.lift_freeze`: early return when not frozen; otherwise
clear the frozen flag and reason and then reset the whole budget window. -/
def lift_freeze (e : GovernanceEngine) (now : Nat) : GovernanceEngine :=
  if !e.safety_budget.is_frozen then e
  else
    let e1 :=
      { e with safety_budget :=
          { e.safety_budget with is_frozen := false, freeze_reason := none } }
    reset_safety_budget e1 now

/-- Claim C6: `lift_freeze` is a no-op on an unfrozen engine; on a frozen
engine it clears the frozen flag and reason and resets the whole rolling
window — all three counters 0 and window start equal to the lift time. -/
theorem lift_freeze_resets_window (e : GovernanceEngine) (now : Nat) :
    (e.safety_budget.is_frozen = false → lift_freeze e now = e) ∧
    (e.safety_budget.is_frozen = true →
      (lift_freeze e now).safety_budget.is_frozen = false ∧
      (lift_freeze e now).safety_budget.freeze_reason = none ∧
      (lift_freeze e now).safety_budget.suspicious_on_trusted = 0 ∧
      (lift_freeze e now).safety_budget.overrides_used = 0 ∧
      (lift_freeze e now).safety_budget.canary_failures = 0 ∧
      (lift_freeze e now).safety_budget.window_start = now) := by
  constructor <;> intro h <;> simp [lift_freeze, reset_safety_budget, h]

/-- Witness for claim C6 at a concrete frozen engine. -/
theorem lift_freeze_resets_window_witness :
    frozenEngine.safety_budget.is_frozen = true ∧
    ((lift_freeze frozenEngine 42).safety_budget.is_frozen = false ∧
     (lift_freeze frozenEngine 42).safety_budget.freeze_reason = none ∧
     (lift_freeze frozenEngine 42).safety_budget.suspicious_on_trusted = 0 ∧
     (lift_freeze frozenEngine 42).safety_budget.overrides_used = 0 ∧
     (lift_freeze frozenEngine 42).safety_budget.canary_failures = 0 ∧
     (lift_freeze frozenEngine 42).safety_budget.window_start = 42) :=
  ⟨rfl, (lift_freeze_resets_window frozenEngine 42).2 rfl⟩

/-- The policy-adjustment record returned by
`get_calibration_policy_adjustment` (one dict per status in the source;
statuses without a warning message carry `none`). -/
structure PolicyAdjustment where
  confidence_penalty : ℚ
  restrict_phishing : Bool
  require_warning : Bool
  ci_should_warn : Bool
  warning_message : Option String := none
  deriving DecidableEq

/-- `GovernanceEngine.get_calibration_policy_adjustment`: healthy and
degraded are matched exactly; every other status falls into the unknown
branch. -/
def get_calibration_policy_adjustment (calibration_status : String) : PolicyAdjustment :=
  if calibration_status = "healthy" then
    { confidence_penalty := 0
      restrict_phishing := false
      require_warning := false
      ci_should_warn := false }
  else if calibration_status = "degraded" then
    { confidence_penalty := 0.20
      restrict_phishing := true
      require_warning := true
      ci_should_warn := true
      warning_message := some "Model calibration is degraded. Confidence reduced." }
  else
    { confidence_penalty := 0.10
      restrict_phishing := true
      require_warning := true
      ci_should_warn := true
      warning_message := some "Calibration status unknown. Results may be unreliable." }

/-- `GovernanceEngine.apply_calibration_restriction`: downgrade PHISHING to
SUSPICIOUS when the adjustment restricts phishing, otherwise pass the
verdict through. -/
def apply_calibration_restriction (original_verdict calibration_status : String) : String :=
  let adjustment := get_calibration_policy_adjustment calibration_status
  if adjustment.restrict_phishing && original_verdict = "PHISHING" then "SUSPICIOUS"
  else original_verdict

/-- Claim C7: the calibration adapter is the exact pure mapping — healthy
gives penalty 0 and no restriction, degraded gives penalty 0.20 with
restriction, unknown gives penalty 0.10 with restriction; hence the three
quoted restriction equations hold and every non-PHISHING verdict passes
through unchanged for every status. -/
theorem calibration_adapter_mapping :
    (get_calibration_policy_adjustment "healthy").confidence_penalty = 0 ∧
    (get_calibration_policy_adjustment "healthy").restrict_phishing = false ∧
    (get_calibration_policy_adjustment "degraded").confidence_penalty = 0.20 ∧
    (get_calibration_policy_adjustment "degraded").restrict_phishing = true ∧
    (get_calibration_policy_adjustment "unknown").confidence_penalty = 0.10 ∧
    (get_calibration_policy_adjustment "unknown").restrict_phishing = true ∧
    apply_calibration_restriction "PHISHING" "degraded" = "SUSPICIOUS" ∧
    apply_calibration_restriction "SAFE" "degraded" = "SAFE" ∧
    apply_calibration_restriction "PHISHING" "healthy" = "PHISHING" ∧
    ∀ verdict status, verdict ≠ "PHISHING" →
      apply_calibration_restriction verdict status = verdict := by
  refine ⟨by norm_num [get_calibration_policy_adjustment],
    rfl, rfl, rfl, rfl, rfl, rfl, rfl, rfl,
    fun verdict status h => ?_⟩
  simp [apply_calibration_restriction, h]

/-- Witness for the universally quantified clause of claim C7: a SAFE
verdict under an arbitrary status string passes through unchanged. -/
theorem calibration_adapter_mapping_witness :
    apply_calibration_restriction "SAFE" "weird-status" = "SAFE" :=
  calibration_adapter_mapping.2.2.2.2.2.2.2.2.2 "SAFE" "weird-status" (by decide)

/-- Claim C10: every status other than exactly healthy or degraded gets the
unknown policy — penalty 0.10, restrict_phishing and require_warning true —
so PHISHING is downgraded to SUSPICIOUS: the adapter fails closed on
unrecognized statuses. -/
theorem unrecognized_status_fails_closed (s : String)
    (h1 : s ≠ "healthy") (h2 : s ≠ "degraded") :
    (get_calibration_policy_adjustment s).confidence_penalty = 0.10 ∧
    (get_calibration_policy_adjustment s).restrict_phishing = true ∧
    (get_calibration_policy_adjustment s).require_warning = true ∧
    apply_calibration_restriction "PHISHING" s = "SUSPICIOUS" := by
  refine ⟨?_, ?_, ?_, ?_⟩ <;>
    simp [get_calibration_policy_adjustment, apply_calibration_restriction, h1, h2]

/-- Witness for claim C10 at the concrete unrecognized status HEALTHY
(wrong casing). -/
theorem unrecognized_status_fails_closed_witness :
    ((get_calibration_policy_adjustment "HEALTHY").confidence_penalty = 0.10 ∧
     (get_calibration_policy_adjustment "HEALTHY").restrict_phishing = true ∧
     (get_calibration_policy_adjustment "HEALTHY").require_warning = true ∧
     apply_calibration_restriction "PHISHING" "HEALTHY" = "SUSPICIOUS") :=
  unrecognized_status_fails_closed "HEALTHY" (by decide) (by decide)

/-- Lookup in the `canary_signals` dict. -/
def findSignal : List (String × CanarySignal) → String → Option CanarySignal
  | [], _ => none
  | (k, v) :: rest, d => if k = d then some v else findSignal rest d

/-- In-place update of the `canary_signals` dict (append when absent). -/
def setSignal : List (String × CanarySignal) → String → CanarySignal →
    List (String × CanarySignal)
  | [], d, v => [(d, v)]
  | (k, w) :: rest, d, v =>
    if k = d then (d, v) :: rest else (k, w) :: setSignal rest d v

theorem findSignal_setSignal (l : List (String × CanarySignal)) (d : String)
    (v : CanarySignal) : findSignal (setSignal l d v) d = some v := by
  induction l with
  | nil => simp [setSignal, findSignal]
  | cons hd tl ih =>
    obtain ⟨k, w⟩ := hd
    by_cases hk : k = d <;> simp [setSignal, findSignal, hk, ih]

/-- `GovernanceEngine.record_canary_result`: lazily create the signal,
bump run count and sample size, then treat PHISHING as a failure (streak
reset, global canary-failure counter bumped, freeze check) and anything
else as a pass. -/
def record_canary_result (e : GovernanceEngine) (now : Nat) (domain verdict : String)
    (sample_size : Nat := 1) : CanarySignal × GovernanceEngine :=
  let signal0 :=
    match findSignal e.canary_signals domain with
    | some s => s
    | none => { domain := domain }
  let signal1 :=
    { signal0 with
        test_runs := signal0.test_runs + 1
        sample_size := signal0.sample_size + sample_size
        last_run := some now
        last_verdict := some verdict }
  if verdict = "PHISHING" then
    let signal2 :=
      { signal1 with failures := signal1.failures + 1, consecutive_passes := 0 }
    let e1 :=
      { e with safety_budget :=
          { e.safety_budget with
              canary_failures := e.safety_budget.canary_failures + 1 } }
    let e2 :=
      if e1.safety_budget.is_budget_exceeded.canary_failures then
        trigger_freeze e1 "Canary failure budget exceeded"
      else e1
    (signal2, { e2 with canary_signals := setSignal e2.canary_signals domain signal2 })
  else
    let signal2 :=
      { signal1 with
          passes := signal1.passes + 1
          consecutive_passes := signal1.consecutive_passes + 1 }
    (signal2, { e with canary_signals := setSignal e.canary_signals domain signal2 })

/-- Result dict of `check_promotion_eligibility` (the success dict carries
the two extra approval keys). -/
structure EligibilityReport where
  eligible : Bool
  reason : String
  signal : Option CanarySignal
  requires_approval : Bool := false
  approval_metadata_required : List String := []
  deriving DecidableEq

/-- `GovernanceEngine.check_promotion_eligibility`. -/
def check_promotion_eligibility (e : GovernanceEngine) (domain : String) :
    EligibilityReport :=
  match findSignal e.canary_signals domain with
  | none => { eligible := false, reason := "No signal data recorded", signal := none }
  | some signal =>
    if !signal.has_sufficient_signal then
      { eligible := false
        reason := "Insufficient signal: " ++ toString signal.test_runs ++ "/" ++
          toString CANARY_MIN_PASSES ++ " runs, " ++ toString signal.sample_size ++
          "/" ++ toString CANARY_MIN_SAMPLE_SIZE ++ " samples"
        signal := some signal }
    else if signal.consecutive_passes < CANARY_MIN_PASSES then
      { eligible := false
        reason := "Insufficient consecutive passes: " ++
          toString signal.consecutive_passes ++ "/" ++ toString CANARY_MIN_PASSES
        signal := some signal }
    else if signal.pass_rate < 1 then
      { eligible := false
        reason := "Pass rate below 100% required"
        signal := some signal }
    else
      { eligible := true
        reason := "All promotion criteria met"
        signal := some signal
        requires_approval := true
        approval_metadata_required := ["approved_by", "approval_date", "review_ticket"] }

theorem pass_rate_le_one (s : CanarySignal) (h : s.passes ≤ s.test_runs) :
    s.pass_rate ≤ 1 := by
  unfold CanarySignal.pass_rate
  split
  · norm_num
  · rename_i h0
    rw [div_le_one (by exact_mod_cast Nat.pos_of_ne_zero h0)]
    exact_mod_cast h

/-- Claim C4: for a domain with recorded signal (which always satisfies
passes ≤ test runs), promotion eligibility holds iff run count ≥ 5, sample
size ≥ 100, consecutive passes ≥ 5 and pass rate exactly 100%; and a single
PHISHING result resets the consecutive-pass streak of the returned and the
stored signal to 0. -/
theorem canary_eligibility_iff_and_phishing_resets (e : GovernanceEngine)
    (d : String) (s : CanarySignal) (now sz : Nat)
    (hfind : findSignal e.canary_signals d = some s)
    (hinv : s.passes ≤ s.test_runs) :
    ((check_promotion_eligibility e d).eligible = true ↔
      (5 ≤ s.test_runs ∧ 100 ≤ s.sample_size ∧ 5 ≤ s.consecutive_passes ∧
        s.pass_rate = 1)) ∧
    (record_canary_result e now d "PHISHING" sz).1.consecutive_passes = 0 ∧
    findSignal (record_canary_result e now d "PHISHING" sz).2.canary_signals d =
      some (record_canary_result e now d "PHISHING" sz).1 := by
  have hle := pass_rate_le_one s hinv
  refine ⟨?_, ?_, ?_⟩
  · simp only [check_promotion_eligibility, hfind]
    split_ifs with hsuff hconsec hrate
    · simp only [Bool.not_eq_true'] at hsuff
      simp only [CanarySignal.has_sufficient_signal, CANARY_MIN_PASSES,
        CANARY_MIN_SAMPLE_SIZE, ge_iff_le, Bool.and_eq_false_iff,
        decide_eq_false_iff_not] at hsuff
      simp only [Bool.false_eq_true, false_iff, not_and]
      intro h1 h2
      tauto
    · simp only [CANARY_MIN_PASSES] at hconsec
      simp only [Bool.false_eq_true, false_iff, not_and]
      intro _ _ h3
      omega
    · simp only [Bool.false_eq_true, false_iff, not_and]
      intro _ _ _ h4
      rw [h4] at hrate
      exact absurd hrate (lt_irrefl 1)
    · simp only [Bool.not_eq_true', Bool.not_eq_false] at hsuff
      simp only [CanarySignal.has_sufficient_signal, CANARY_MIN_PASSES,
        CANARY_MIN_SAMPLE_SIZE, ge_iff_le, Bool.and_eq_true,
        decide_eq_true_eq] at hsuff
      simp only [CANARY_MIN_PASSES] at hconsec
      simp only [true_iff]
      exact ⟨hsuff.1, hsuff.2, by omega, le_antisymm hle (le_of_not_lt hrate)⟩
  · simp [record_canary_result]
  · simp only [record_canary_result]
    split <;> simp [findSignal_setSignal, trigger_freeze]

/-- A concrete fully passing canary signal for the C4 witness. -/
def goodSignal : CanarySignal :=
  { domain := "example.com", test_runs := 5, passes := 5, failures := 0
    sample_size := 100, last_run := some 0, last_verdict := some "SAFE"
    consecutive_passes := 5 }

/-- A concrete engine holding the passing canary signal. -/
def canaryEngine : GovernanceEngine :=
  { overrides := []
    canary_signals := [("example.com", goodSignal)]
    safety_budget := { window_start := 0 } }

/-- Witness for claim C4 at the concrete engine. -/
theorem canary_eligibility_iff_and_phishing_resets_witness :
    (((check_promotion_eligibility canaryEngine "example.com").eligible = true ↔
        (5 ≤ goodSignal.test_runs ∧ 100 ≤ goodSignal.sample_size ∧
          5 ≤ goodSignal.consecutive_passes ∧ goodSignal.pass_rate = 1)) ∧
      (record_canary_result canaryEngine 3 "example.com" "PHISHING"
          1).1.consecutive_passes = 0 ∧
      findSignal (record_canary_result canaryEngine 3 "example.com" "PHISHING"
          1).2.canary_signals "example.com" =
        some (record_canary_result canaryEngine 3 "example.com" "PHISHING" 1).1) :=
  canary_eligibility_iff_and_phishing_resets canaryEngine "example.com" goodSignal 3 1
    rfl (by decide)

/-- The trusted-domain manifest artifact: only the fields the verifier
reads (a missing or empty field is falsy under the Python check). -/
structure ManifestFile where
  version : Option String
  change_reason : Option String
  deriving DecidableEq

/-- The trusted-domain snapshot artifact: the `_manifest_version` field. -/
structure SnapshotFile where
  manifest_version : Option String
  deriving DecidableEq

/-- The calibration-metrics artifact: the `calibration_status` field. -/
structure CalibrationFile where
  calibration_status : Option String
  deriving DecidableEq

/-- The three companion artifacts read by `verify_policy_consistency`;
`none` models an absent file. -/
structure PolicyArtifacts where
  manifest : Option ManifestFile
  snapshot : Option SnapshotFile
  calibration : Option CalibrationFile
  deriving DecidableEq

/-- Python falsiness of an optional string field: missing or empty. -/
def pyFalsy : Option String → Bool
  | none => true
  | some s => decide (s = "")

/-- The error accumulation of `verify_policy_consistency`: manifest checks
followed by snapshot checks, in source order (the calibration checks only
ever add warnings). -/
def policy_errors (a : PolicyArtifacts) : List String :=
  let manifest_errors :=
    match a.manifest with
    | none => ["Manifest file missing: trusted_domains_manifest.json"]
    | some m =>
      (if pyFalsy m.version then ["Manifest missing version field"] else []) ++
        (if pyFalsy m.change_reason then ["Manifest missing change_reason field"]
         else [])
  let snapshot_errors :=
    match a.snapshot with
    | none => ["Snapshot file missing"]
    | some snap =>
      match a.manifest with
      | none => []
      | some m =>
        if snap.manifest_version ≠ m.version then
          ["Version mismatch: manifest=" ++ optionalStr m.version ++
            ", snapshot=" ++ optionalStr snap.manifest_version]
        else []
  manifest_errors ++ snapshot_errors

/-- The warning accumulation of `verify_policy_consistency`: a missing
calibration artifact or a non-healthy status is a warning, never an
error. -/
def policy_warnings (a : PolicyArtifacts) : List String :=
  match a.calibration with
  | none => ["Calibration metrics file missing"]
  | some c =>
    if c.calibration_status ≠ some "healthy" then
      ["Calibration status is " ++ optionalStr c.calibration_status ++
        ", not healthy"]
    else []

/-- The report dict returned by `verify_policy_consistency`. -/
structure ConsistencyReport where
  consistent : Bool
  errors : List String
  warnings : List String
  should_fail_ci : Bool
  deriving DecidableEq

/-- `GovernanceEngine.verify_policy_consistency`. -/
def verify_policy_consistency (a : PolicyArtifacts) : ConsistencyReport :=
  { consistent := decide ((policy_errors a).length = 0)
    errors := policy_errors a
    warnings := policy_warnings a
    should_fail_ci := decide ((policy_errors a).length > 0) }

/-- Claim C8: `should_fail_ci` is true iff the error list is non-empty; an
absent manifest alone already fails CI, while an absent calibration-metrics
artifact with otherwise consistent artifacts leaves CI green but records a
warning. -/
theorem should_fail_ci_iff_errors (a : PolicyArtifacts) :
    ((verify_policy_consistency a).should_fail_ci = true ↔
      (verify_policy_consistency a).errors ≠ []) ∧
    (a.manifest = none → (verify_policy_consistency a).should_fail_ci = true) ∧
    (∀ m snap, a.manifest = some m → a.snapshot = some snap →
      a.calibration = none →
      pyFalsy m.version = false → pyFalsy m.change_reason = false →
      snap.manifest_version = m.version →
      ((verify_policy_consistency a).should_fail_ci = false ∧
        (verify_policy_consistency a).warnings ≠ [])) := by
  refine ⟨?_, ?_, ?_⟩
  · simp [verify_policy_consistency, List.length_pos]
  · intro h
    simp [verify_policy_consistency, policy_errors, h]
  · intro m snap hm hs hc hv hcr hvm
    simp [verify_policy_consistency, policy_errors, policy_warnings, hm, hs, hc,
      hv, hcr, hvm]

/-- Concrete artifacts: consistent manifest and snapshot, calibration
metrics absent. -/
def calibrationMissingArtifacts : PolicyArtifacts :=
  { manifest := some { version := some "1.0", change_reason := some "initial import" }
    snapshot := some { manifest_version := some "1.0" }
    calibration := none }

/-- Witness for claim C8: with the calibration artifact absent but manifest
and snapshot consistent, CI stays green and a warning is recorded. -/
theorem should_fail_ci_iff_errors_witness :
    (verify_policy_consistency calibrationMissingArtifacts).should_fail_ci = false ∧
    (verify_policy_consistency calibrationMissingArtifacts).warnings ≠ [] :=
  (should_fail_ci_iff_errors calibrationMissingArtifacts).2.2
    { version := some "1.0", change_reason := some "initial import" }
    { manifest_version := some "1.0" } rfl rfl rfl (by decide) (by decide) rfl
